import Mathlib

/-!
Shallow embedding of `mutual-tls` (src/index.js): a minimal single-level PKI
certificate authority built on node-forge.  Buffers are modelled as references
into an explicit store so that aliasing and defensive-copy questions are
statable; PEM encoding/decoding of keys and certificates (external node-forge
machinery) is modelled as an abstract injective coding; randomness (RSA key
material, UUID bits) and the clock are explicit parameters.
-/

set_option maxHeartbeats 1000000

/-- Constant `RSA_KEY_SIZE` from src/index.js line 4. -/
def RSA_KEY_SIZE : Nat := 2048

/-- Constant `ROOT_COMMON_NAME` from src/index.js line 5. -/
def ROOT_COMMON_NAME : String := "Generic CA"

/-- Constant `ROOT_NOT_AFTER` (seconds) from src/index.js line 6. -/
def ROOT_NOT_AFTER : Int := 365 * 86400

/-- Constant `CERT_NOT_AFTER` (seconds) from src/index.js line 7. -/
def CERT_NOT_AFTER : Int := 90 * 86400

/-- JavaScript `a || d` for an optional number `a`: `0` is falsy, as is absence. -/
def jsOrNat (a : Option Nat) (d : Nat) : Nat :=
  match a with
  | none => d
  | some n => if n = 0 then d else n

/-- JavaScript `a || d` for an optional integer `a`: `0` is falsy, as is absence. -/
def jsOrInt (a : Option Int) (d : Int) : Int :=
  match a with
  | none => d
  | some n => if n = 0 then d else n

/-- JavaScript `a || d` for an optional string `a`: `""` is falsy, as is absence. -/
def jsOrStr (a : Option String) (d : String) : String :=
  match a with
  | none => d
  | some s => if s = "" then d else s

/-- Identity of an RSA key pair: the entropy it was generated from and its bit
size.  The public half is mathematically derivable from the private half, so a
single identity stands for both. -/
structure KeyId where
  seed : Nat
  bits : Nat
deriving DecidableEq, Repr, Inhabited

/-- A certificate attribute, e.g. `{name: 'commonName', value: ...}`.  The value
is optional because JavaScript lets `undefined` flow in (e.g. `name[0]` of an
empty array). -/
structure Attr where
  name : String
  value : Option String
deriving DecidableEq, Repr, Inhabited

/-- A subjectAltName entry as produced by `getAltName`: either
`{type: 7, ip: name}` or `{type: 2, value: name}`. -/
inductive AltName where
  | ip (v : String)
  | dns (v : String)
deriving DecidableEq, Repr

/-- The `ALTNAME_TYPE` mapping local to `defaultExtensionsCert`. -/
def AltName.type : AltName → Nat
  | .ip _ => 7
  | .dns _ => 2

/-- The closed set of X.509v3 extension kinds the module emits
(src/index.js `defaultExtensionsRoot` / `defaultExtensionsCert`). -/
inductive Extension where
  | basicConstraints (cA : Bool)
  | keyUsage (keyCertSign digitalSignature nonRepudiation keyEncipherment dataEncipherment : Bool)
  | extKeyUsage (serverAuth clientAuth codeSigning emailProtection timeStamping : Bool)
  | nsCertType (client server email objsign sslCA emailCA objCA : Bool)
  | subjectKeyIdentifier
  | subjectAltName (altNames : List AltName)
deriving DecidableEq, Repr

/-- A forge certificate object: the fields the module sets, plus `signedWith`
recording which private key produced the SHA-256 signature. -/
structure Cert where
  publicKey : KeyId
  serialNumber : String
  notBefore : Int
  notAfter : Int
  subject : List Attr
  issuer : List Attr
  extensions : List Extension
  signedWith : KeyId
deriving DecidableEq, Repr, Inhabited

/-- Contents of a byte buffer: PEM text of a certificate, a private key or a
public key.  PEM encoding is abstract and injective (one constructor per
encodable object), faithful to forge's deterministic encoder. -/
inductive Bytes where
  | certPem (c : Cert)
  | privKeyPem (k : KeyId)
  | pubKeyPem (k : KeyId)
deriving DecidableEq, Repr, Inhabited

/-- A Node.js `Buffer` reference: mutable byte storage identified by an id. -/
structure Buffer where
  id : Nat
deriving DecidableEq, Repr

/-- The buffer store: an allocation counter and the contents of every buffer. -/
structure Store where
  next : Nat
  mem : Nat → Bytes

/-- Allocate a fresh buffer holding `d`. -/
def Store.alloc (s : Store) (d : Bytes) : Buffer × Store :=
  (⟨s.next⟩, ⟨s.next + 1, fun i => if i = s.next then d else s.mem i⟩)

/-- Read a buffer's current contents. -/
def Store.read (s : Store) (b : Buffer) : Bytes :=
  s.mem b.id

/-- Overwrite a buffer's contents in place (Node buffers are mutable). -/
def Store.write (s : Store) (b : Buffer) (d : Bytes) : Store :=
  ⟨s.next, fun i => if i = b.id then d else s.mem i⟩

/-- Node's `Buffer.from(buf)`: allocate a new buffer with a copy of `buf`'s
contents. -/
def bufferFrom (s : Store) (b : Buffer) : Buffer × Store :=
  s.alloc (s.read b)

/-- forge `pki.certificateToPem`. -/
def certificateToPem (c : Cert) : Bytes :=
  Bytes.certPem c

/-- forge `pki.certificateFromPem` (total model: junk on non-certificate PEM;
every call site feeds it certificate PEM). -/
def certificateFromPem : Bytes → Cert
  | .certPem c => c
  | _ => default

/-- forge `pki.publicKeyFromPem` (total model; junk on non-public-key PEM). -/
def publicKeyFromPem : Bytes → KeyId
  | .pubKeyPem k => k
  | _ => ⟨0, 0⟩

/-- forge `pki.privateKeyFromPem` (total model; junk on non-private-key PEM). -/
def privateKeyFromPem : Bytes → KeyId
  | .privKeyPem k => k
  | _ => ⟨0, 0⟩

/-- Hex digit character for a nibble (`0`–`9`, `a`–`f`). -/
def hexDigitChar (n : Nat) : Char :=
  if n < 10 then Char.ofNat (48 + n) else Char.ofNat (87 + n)

/-- Nibble `i` (0-based, little-endian over the 32 hex digits) of a version-4
UUID built from 128 random bits `r`: nibble 12 is the version `4`, nibble 16
is the RFC 4122 variant (`8`–`b`), all others are random. -/
def uuidNibble (r : Nat) (i : Nat) : Nat :=
  if i = 12 then 4
  else if i = 16 then 8 + (r / 16 ^ i) % 4
  else (r / 16 ^ i) % 16

/-- The 32 hex characters of a version-4 UUID built from random bits `r`. -/
def uuidHexChars (r : Nat) : List Char :=
  (List.range 32).map fun i => hexDigitChar (uuidNibble r i)

/-- Node `crypto.randomUUID()`: 36 characters, groups of 8-4-4-4-12 hex digits
separated by dashes. -/
def randomUUID (r : Nat) : String :=
  let cs := uuidHexChars r
  String.mk (cs.take 8 ++ '-' ::
    ((cs.drop 8).take 4 ++ '-' ::
      ((cs.drop 12).take 4 ++ '-' ::
        ((cs.drop 16).take 4 ++ '-' :: cs.drop 20))))

/-- src/index.js `generateSerialNumber`: `crypto.randomUUID()` with every dash
removed (the `replace` call with the global dash pattern). -/
def generateSerialNumber (r : Nat) : String :=
  String.mk ((randomUUID r).data.filter fun c => c != '-')

/-- A generated key pair as returned by `generateKeyPair`: two PEM buffers. -/
structure KeyPairB where
  publicKey : Buffer
  privateKey : Buffer
deriving DecidableEq, Repr

/-- src/index.js `generateKeyPair(bits)`: forge generates RSA key material
(modelled by the entropy `seed`), and both PEM encodings are wrapped in fresh
buffers via `Buffer.from`. -/
def generateKeyPair (bits : Nat) (seed : Nat) (s : Store) : KeyPairB × Store :=
  let (pub, s1) := s.alloc (Bytes.pubKeyPem ⟨seed, bits⟩)
  let (priv, s2) := s1.alloc (Bytes.privKeyPem ⟨seed, bits⟩)
  (⟨pub, priv⟩, s2)

/-- src/index.js `privateToPublicKey(privateKey)`: parse the private key PEM,
rebuild the public key from its modulus/exponent, return a fresh PEM buffer. -/
def privateToPublicKey (s : Store) (privateKey : Buffer) : Buffer × Store :=
  s.alloc (Bytes.pubKeyPem (privateKeyFromPem (s.read privateKey)))

/-- src/index.js `defaultAttributes(commonName)`. -/
def defaultAttributes (commonName : Option String) : List Attr :=
  [⟨"commonName", commonName⟩]

/-- src/index.js `defaultExtensionsRoot()`. -/
def defaultExtensionsRoot : List Extension :=
  [ .basicConstraints true,
    .keyUsage true true true true true,
    .extKeyUsage true true true true true,
    .nsCertType true true true true true true true,
    .subjectKeyIdentifier ]

/-- JavaScript `name.match(/^[\d.]+$/)` viewed as a Boolean: at least one
character, every character a decimal digit or a dot. -/
def matchIpLike (nm : String) : Bool :=
  !nm.isEmpty && nm.data.all fun c => c.isDigit || c == '.'

/-- src/index.js `getAltName(name)` (local to `defaultExtensionsCert`). -/
def getAltName (nm : String) : AltName :=
  if matchIpLike nm then .ip nm else .dns nm

/-- src/index.js `defaultExtensionsCert(altNames)`. -/
def defaultExtensionsCert (altNames : List String) : List Extension :=
  [ .basicConstraints false,
    .keyUsage false true false true true,
    .extKeyUsage true true false false false,
    .nsCertType true true false false false false false,
    .subjectKeyIdentifier,
    .subjectAltName (altNames.map getAltName) ]

/-- Options accepted by the constructor and by `authorize`
(`{name, bits, expiry}`); `expiry` is in seconds. -/
structure Opts where
  name : Option String := none
  bits : Option Nat := none
  expiry : Option Int := none

/-- The `root` argument of `MutualTLS.from` / `_loadCA`:
`{ca, key, keyPair, publicKey}`, each possibly absent. -/
structure RootOpts where
  ca : Option Buffer := none
  key : Option Buffer := none
  keyPair : Option KeyPairB := none
  publicKey : Option Buffer := none

/-- The `names` argument of `authorize`: absent (`undefined`), a bare string,
or an array of strings. -/
inductive Names where
  | absent
  | str (s : String)
  | arr (l : List String)
deriving DecidableEq, Repr

/-- JavaScript truthiness of the `names` argument: `undefined` and `''` are
falsy; every array — including the empty array — is truthy. -/
def namesTruthy : Names → Bool
  | .absent => false
  | .str s => !s.isEmpty
  | .arr _ => true

/-- The string sequence `names` denotes after the `typeof name === 'string'`
wrapping step. -/
def namesList : Names → List String
  | .absent => []
  | .str s => [s]
  | .arr l => l

/-- A `MutualTLS` instance: `_keyPair`, `_cert`, `_pem` (src/index.js 10–17). -/
structure MutualTLS where
  _keyPair : KeyPairB
  _cert : Cert
  _pem : Buffer
deriving DecidableEq, Repr

/-- src/index.js `_createCA(opts)` (lines 19–41): generate a key pair,
self-sign a root certificate.  `now` is `Date.now()` in milliseconds, `seed`
the RSA entropy, `uuid` the serial-number randomness. -/
def _createCA (opts : Opts) (now : Int) (seed uuid : Nat) (s : Store) :
    MutualTLS × Store :=
  let (keyPair, s1) := generateKeyPair (jsOrNat opts.bits RSA_KEY_SIZE) seed s
  let attributes := defaultAttributes (some (jsOrStr opts.name ROOT_COMMON_NAME))
  let extensions := defaultExtensionsRoot
  let cert : Cert :=
    { publicKey := publicKeyFromPem (s1.read keyPair.publicKey)
      serialNumber := generateSerialNumber uuid
      notBefore := now - 86400 * 1000
      notAfter := now + (jsOrInt opts.expiry ROOT_NOT_AFTER) * 1000
      subject := attributes
      issuer := attributes
      extensions := extensions
      signedWith := privateKeyFromPem (s1.read keyPair.privateKey) }
  let (pem, s2) := s1.alloc (certificateToPem cert)
  (⟨keyPair, cert, pem⟩, s2)

/-- src/index.js `toKeyPair(root)` (lines 126–142). -/
def toKeyPair (root : RootOpts) (s : Store) : Except String (KeyPairB × Store) :=
  match root.keyPair with
  | some kp =>
      let (pub, s1) := bufferFrom s kp.publicKey
      let (priv, s2) := bufferFrom s1 kp.privateKey
      .ok (⟨pub, priv⟩, s2)
  | none =>
    match root.key with
    | some k =>
        let (pubSrc, s1) :=
          match root.publicKey with
          | some pb => (pb, s)
          | none => privateToPublicKey s k
        let (pub, s2) := bufferFrom s1 pubSrc
        let (priv, s3) := bufferFrom s2 k
        .ok (⟨pub, priv⟩, s3)
    | none => .error "Could not get key pair"

/-- src/index.js `_loadCA(root)` (lines 43–50). -/
def _loadCA (root : RootOpts) (s : Store) : Except String (MutualTLS × Store) :=
  match root.ca with
  | none => .error "Missing certificate"
  | some caBuf =>
    if root.keyPair.isNone && root.key.isNone then
      .error "Missing key pair or private key"
    else
      match toKeyPair root s with
      | .error e => .error e
      | .ok (kp, s1) =>
        let cert := certificateFromPem (s1.read caBuf)
        let (pem, s2) := s1.alloc (certificateToPem cert)
        .ok (⟨kp, cert, pem⟩, s2)

/-- src/index.js `static from (root)` (lines 89–91): `new this(null, root)`,
which dispatches to `_loadCA`. -/
def MutualTLS.fromRoot (root : RootOpts) (s : Store) :
    Except String (MutualTLS × Store) :=
  _loadCA root s

/-- src/index.js `get key ()` (lines 52–54): `return this._keyPair.privateKey`. -/
def MutualTLS.key (m : MutualTLS) : Buffer :=
  m._keyPair.privateKey

/-- src/index.js `get ca ()` (lines 56–58): `return this._pem`. -/
def MutualTLS.ca (m : MutualTLS) : Buffer :=
  m._pem

/-- Result of `authorize`: `{key, cert}` PEM buffers. -/
structure Issued where
  key : Buffer
  cert : Buffer
deriving DecidableEq, Repr

/-- src/index.js `authorize (name, opts)` (lines 60–87). -/
def MutualTLS.authorize (m : MutualTLS) (name : Names) (opts : Opts)
    (now : Int) (seed uuid : Nat) (s : Store) : Except String (Issued × Store) :=
  if !namesTruthy name then .error "Common name is required"
  else
    let nm := namesList name
    let (keyPair, s1) := generateKeyPair (jsOrNat opts.bits RSA_KEY_SIZE) seed s
    let cert : Cert :=
      { publicKey := publicKeyFromPem (s1.read keyPair.publicKey)
        serialNumber := generateSerialNumber uuid
        notBefore := now - 86400 * 1000
        notAfter := now + (jsOrInt opts.expiry CERT_NOT_AFTER) * 1000
        subject := defaultAttributes nm.head?
        issuer := m._cert.issuer
        extensions := defaultExtensionsCert nm
        signedWith := privateKeyFromPem (s1.read m._keyPair.privateKey) }
    let (certBuf, s2) := s1.alloc (certificateToPem cert)
    .ok (⟨keyPair.privateKey, certBuf⟩, s2)

/-- src/index.js `static keyPair (bits)` (lines 93–95). -/
def MutualTLS.keyPairStatic (bits : Option Nat) (seed : Nat) (s : Store) :
    KeyPairB × Store :=
  generateKeyPair (jsOrNat bits RSA_KEY_SIZE) seed s

/-- src/index.js `static serialNumber ()` (lines 97–99). -/
def MutualTLS.serialNumberStatic (r : Nat) : String :=
  generateSerialNumber r

/-- src/index.js `static toPublicKey (privateKey)` (lines 101–103). -/
def MutualTLS.toPublicKey (s : Store) (privateKey : Buffer) : Buffer × Store :=
  privateToPublicKey s privateKey

/-- First `subjectAltName` extension in a list, if any. -/
def findSubjectAltName : List Extension → Option (List AltName)
  | [] => none
  | .subjectAltName ns :: _ => some ns
  | _ :: rest => findSubjectAltName rest

/-- The certificate an `authorize` result carries, decoded from its `cert`
buffer in the resulting store. -/
def issuedCert (s : Store) (i : Issued) : Cert :=
  certificateFromPem (s.read i.cert)

/-- Extract the payload of an `ok` result (junk default on `error`). -/
def exceptIssued (e : Except String (Issued × Store)) : Issued × Store :=
  match e with
  | .ok v => v
  | .error _ => (⟨⟨0⟩, ⟨0⟩⟩, ⟨0, fun _ => default⟩)

/-- Extract the payload of an `ok` restore result (junk default on `error`). -/
def exceptCA (e : Except String (MutualTLS × Store)) : MutualTLS × Store :=
  match e with
  | .ok v => v
  | .error _ => (⟨⟨⟨0⟩, ⟨0⟩⟩, default, ⟨0⟩⟩, ⟨0, fun _ => default⟩)

/-- An empty store to run concrete examples in. -/
def exStore : Store :=
  ⟨0, fun _ => default⟩

/-- A concrete freshly created root CA (default options, time 0, entropy 0). -/
def exRoot : MutualTLS × Store :=
  _createCA {} 0 0 0 exStore

/-- A leaf certificate issued by the concrete root. -/
def exLeaf : Issued × Store :=
  exceptIssued (exRoot.1.authorize (.str "leaf.example") {} 0 1 1 exRoot.2)

/-- A CA restored (via `from`) from that leaf's key and certificate — a
reachable instance whose certificate is not self-signed. -/
def exLeafCA : MutualTLS × Store :=
  exceptCA (MutualTLS.fromRoot
    { ca := some exLeaf.1.cert, key := some exLeaf.1.key } exLeaf.2)

/-- A certificate issued by the leaf-loaded CA. -/
def exIssued2 : Issued × Store :=
  exceptIssued (exLeafCA.1.authorize (.str "client") {} 0 2 2 exLeafCA.2)

/-- A certificate issued by the concrete root for a DNS name and an IP. -/
def exSan : Issued × Store :=
  exceptIssued (exRoot.1.authorize (.arr ["localhost", "127.0.0.1"])
    {} 0 3 3 exRoot.2)

lemma Store.read_write_self (s : Store) (b : Buffer) (d : Bytes) :
    (s.write b d).read b = d := by
  simp [Store.write, Store.read]

lemma Store.read_write_of_eq (s : Store) (b b' : Buffer) (d : Bytes)
    (h : b'.id = b.id) : (s.write b d).read b' = d := by
  simp [Store.write, Store.read, h]

lemma uuidNibble_lt (r i : Nat) : uuidNibble r i < 16 := by
  unfold uuidNibble
  split
  · omega
  · split
    · have : (r / 16 ^ i) % 4 < 4 := Nat.mod_lt _ (by norm_num)
      omega
    · exact Nat.mod_lt _ (by norm_num)

lemma hexDigitChar_ne_dash : ∀ n < 16, hexDigitChar n ≠ '-' := by
  decide

lemma hexDigitChar_isHex : ∀ n < 16,
    (hexDigitChar n).isDigit = true ∨
      ('a' ≤ hexDigitChar n ∧ hexDigitChar n ≤ 'f') := by
  decide

lemma mem_uuidHexChars {r : Nat} {c : Char} (h : c ∈ uuidHexChars r) :
    ∃ n, n < 16 ∧ c = hexDigitChar n := by
  unfold uuidHexChars at h
  obtain ⟨i, -, rfl⟩ := List.mem_map.mp h
  exact ⟨uuidNibble r i, uuidNibble_lt r i, rfl⟩

lemma take_drop_assemble (l : List Char) :
    l.take 8 ++ ((l.drop 8).take 4 ++ ((l.drop 12).take 4 ++
      ((l.drop 16).take 4 ++ l.drop 20))) = l := by
  have h1 : (l.drop 16).take 4 ++ l.drop 20 = l.drop 16 := by
    have h := List.take_append_drop 4 (l.drop 16)
    rw [List.drop_drop] at h
    norm_num at h
    exact h
  have h2 : (l.drop 12).take 4 ++ l.drop 16 = l.drop 12 := by
    have h := List.take_append_drop 4 (l.drop 12)
    rw [List.drop_drop] at h
    norm_num at h
    exact h
  have h3 : (l.drop 8).take 4 ++ l.drop 12 = l.drop 8 := by
    have h := List.take_append_drop 4 (l.drop 8)
    rw [List.drop_drop] at h
    norm_num at h
    exact h
  rw [h1, h2, h3, List.take_append_drop]

lemma uuidHexChars_length (r : Nat) : (uuidHexChars r).length = 32 := by
  simp [uuidHexChars]

lemma serial_data_eq (r : Nat) :
    (generateSerialNumber r).data = uuidHexChars r := by
  have hall : ∀ c ∈ uuidHexChars r, (c != '-') = true := by
    intro c hc
    obtain ⟨n, hn, rfl⟩ := mem_uuidHexChars hc
    simpa [bne_iff_ne] using hexDigitChar_ne_dash n hn
  have hsub : ∀ (l : List Char), l ⊆ uuidHexChars r →
      l.filter (fun c => c != '-') = l := by
    intro l hl
    exact List.filter_eq_self.mpr fun c hc => hall c (hl hc)
  unfold generateSerialNumber randomUUID
  simp only [String.data]
  rw [List.filter_append]
  rw [List.filter_cons_of_neg (by decide)]
  rw [List.filter_append]
  rw [List.filter_cons_of_neg (by decide)]
  rw [List.filter_append]
  rw [List.filter_cons_of_neg (by decide)]
  rw [List.filter_append]
  rw [List.filter_cons_of_neg (by decide)]
  rw [hsub _ (List.take_subset _ _)]
  rw [hsub _ (fun c hc => List.drop_subset _ _ (List.take_subset _ _ hc))]
  rw [hsub _ (fun c hc => List.drop_subset _ _ (List.take_subset _ _ hc))]
  rw [hsub _ (fun c hc => List.drop_subset _ _ (List.take_subset _ _ hc))]
  rw [hsub _ (List.drop_subset _ _)]
  exact take_drop_assemble _

/-- C5: every call of the serial-number generator returns a 32-hex-character
string (lower-case hex digits only), with no separators; the result is a pure
function of the 128 random bits drawn for that single call, so there is no
counter and no shared state and distinct calls are independent. -/
theorem C5_serialNumber_format (r : Nat) :
    (generateSerialNumber r).length = 32
    ∧ (∀ c ∈ (generateSerialNumber r).data,
        c.isDigit = true ∨ ('a' ≤ c ∧ c ≤ 'f'))
    ∧ '-' ∉ (generateSerialNumber r).data
    ∧ MutualTLS.serialNumberStatic r = generateSerialNumber r := by
  refine ⟨?_, ?_, ?_, rfl⟩
  · show (generateSerialNumber r).data.length = 32
    rw [serial_data_eq]
    exact uuidHexChars_length r
  · intro c hc
    rw [serial_data_eq] at hc
    obtain ⟨n, hn, rfl⟩ := mem_uuidHexChars hc
    exact hexDigitChar_isHex n hn
  · intro hmem
    rw [serial_data_eq] at hmem
    obtain ⟨n, hn, heq⟩ := mem_uuidHexChars hmem
    exact hexDigitChar_ne_dash n hn heq.symm

/-- C5 witness: the theorem instantiated at concrete randomness 0, with the
membership hypothesis discharged at the first character of the result. -/
theorem C5_serialNumber_format_witness :
    (generateSerialNumber 0).length = 32
    ∧ ((Char.ofNat 48).isDigit = true
        ∨ ('a' ≤ Char.ofNat 48 ∧ Char.ofNat 48 ≤ 'f'))
    ∧ '-' ∉ (generateSerialNumber 0).data :=
  ⟨(C5_serialNumber_format 0).1,
   (C5_serialNumber_format 0).2.1 (Char.ofNat 48) (by decide),
   (C5_serialNumber_format 0).2.2.1⟩

/-- C1 counterexample: for a concrete freshly created authority, the buffer
returned by the `ca` accessor IS the internal `_pem` buffer (not a distinct
copy), and overwriting the returned buffer changes the authority's internal
certificate storage from its certificate PEM to the written bytes. -/
theorem C1_accessor_no_copy_counterexample :
    exRoot.1.ca = exRoot.1._pem
    ∧ exRoot.1.key = exRoot.1._keyPair.privateKey
    ∧ exRoot.2.read exRoot.1._pem = certificateToPem exRoot.1._cert
    ∧ (exRoot.2.write exRoot.1.ca (Bytes.privKeyPem ⟨9, 9⟩)).read exRoot.1._pem
        = Bytes.privKeyPem ⟨9, 9⟩
    ∧ (exRoot.2.write exRoot.1.ca (Bytes.privKeyPem ⟨9, 9⟩)).read exRoot.1._pem
        ≠ exRoot.2.read exRoot.1._pem := by
  refine ⟨rfl, rfl, rfl, rfl, ?_⟩
  decide

/-- C1 amended: the accessors `key` and `ca` return the authority's internal
private-key / certificate-PEM buffers themselves — the same buffer reference
as the internal storage, never a defensive copy — so writing through a
returned buffer is visible in the authority's internal state and in every
later accessor read. -/
theorem C1_accessors_alias_internal (m : MutualTLS) (s : Store) (d : Bytes) :
    m.key = m._keyPair.privateKey
    ∧ m.ca = m._pem
    ∧ (s.write m.ca d).read m._pem = d
    ∧ (s.write m.key d).read m._keyPair.privateKey = d
    ∧ (s.write m.ca d).read m.ca = d := by
  refine ⟨rfl, rfl, ?_, ?_, ?_⟩
  · exact Store.read_write_of_eq s m.ca m._pem d rfl
  · exact Store.read_write_self s m.key d
  · exact Store.read_write_self s m.ca d

/-- C2 counterexample: for a concrete authority, `authorize` applied to the
empty sequence does NOT fail with the MissingNameError — the guard tests
JavaScript truthiness and an empty array is truthy — so issuance proceeds. -/
theorem C2_empty_sequence_not_rejected_counterexample :
    (exRoot.1.authorize (.arr []) {} 0 1 1 exRoot.2).isOk = true := by
  rfl

/-- C2 amended: `authorize(names, opts)` fails with the MissingNameError
exactly when `names` is absent or is the empty string — an empty sequence is
NOT rejected, because the guard tests JavaScript truthiness and every array is
truthy — and a bare non-empty string is treated as the single-element sequence
containing that string. -/
theorem C2_missing_name_guard (m : MutualTLS) (name : Names) (opts : Opts)
    (now : Int) (seed uuid : Nat) (s : Store) :
    (m.authorize name opts now seed uuid s = .error "Common name is required"
      ↔ name = .absent ∨ name = .str "")
    ∧ (∀ t : String, t ≠ "" →
        m.authorize (.str t) opts now seed uuid s
          = m.authorize (.arr [t]) opts now seed uuid s) := by
  constructor
  · constructor
    · intro h
      cases name with
      | absent => exact Or.inl rfl
      | str t =>
        by_cases ht : t = ""
        · exact Or.inr (by rw [ht])
        · exfalso
          rw [MutualTLS.authorize] at h
          simp [namesTruthy, String.isEmpty_iff, ht] at h
      | arr l =>
        exfalso
        rw [MutualTLS.authorize] at h
        simp [namesTruthy] at h
    · intro h
      rcases h with h | h <;> rw [h] <;> rfl
  · intro t ht
    rw [MutualTLS.authorize, MutualTLS.authorize]
    simp [namesTruthy, namesList, String.isEmpty_iff, ht]

/-- C2 witness: the amended characterization applied at a concrete authority —
`authorize("a")` behaves as `authorize(["a"])`, and the error characterization
holds at the absent argument. -/
theorem C2_missing_name_guard_witness :
    exRoot.1.authorize (.str "a") {} 0 1 1 exRoot.2
      = exRoot.1.authorize (.arr ["a"]) {} 0 1 1 exRoot.2
    ∧ (exRoot.1.authorize .absent {} 0 1 1 exRoot.2
        = .error "Common name is required"
      ↔ Names.absent = .absent ∨ Names.absent = .str "") :=
  ⟨(C2_missing_name_guard exRoot.1 (.str "a") {} 0 1 1 exRoot.2).2 "a"
      (by decide),
   (C2_missing_name_guard exRoot.1 .absent {} 0 1 1 exRoot.2).1⟩

lemma createCA_spec (opts : Opts) (now : Int) (seed uuid : Nat) (s : Store) :
    ((_createCA opts now seed uuid s).1)._cert =
      { publicKey := ⟨seed, jsOrNat opts.bits RSA_KEY_SIZE⟩
        serialNumber := generateSerialNumber uuid
        notBefore := now - 86400 * 1000
        notAfter := now + jsOrInt opts.expiry ROOT_NOT_AFTER * 1000
        subject := defaultAttributes (some (jsOrStr opts.name ROOT_COMMON_NAME))
        issuer := defaultAttributes (some (jsOrStr opts.name ROOT_COMMON_NAME))
        extensions := defaultExtensionsRoot
        signedWith := ⟨seed, jsOrNat opts.bits RSA_KEY_SIZE⟩ }
    ∧ (_createCA opts now seed uuid s).2.read ((_createCA opts now seed uuid s).1)._pem
        = certificateToPem ((_createCA opts now seed uuid s).1)._cert
    ∧ (_createCA opts now seed uuid s).2.read
        ((_createCA opts now seed uuid s).1)._keyPair.privateKey
        = Bytes.privKeyPem ⟨seed, jsOrNat opts.bits RSA_KEY_SIZE⟩
    ∧ (_createCA opts now seed uuid s).2.read
        ((_createCA opts now seed uuid s).1)._keyPair.publicKey
        = Bytes.pubKeyPem ⟨seed, jsOrNat opts.bits RSA_KEY_SIZE⟩
    ∧ ((_createCA opts now seed uuid s).1)._keyPair.publicKey.id = s.next
    ∧ ((_createCA opts now seed uuid s).1)._keyPair.privateKey.id = s.next + 1
    ∧ ((_createCA opts now seed uuid s).1)._pem.id = s.next + 2
    ∧ ((_createCA opts now seed uuid s).2).next = s.next + 3
    ∧ (∀ b : Buffer, b.id < s.next →
        (_createCA opts now seed uuid s).2.read b = s.read b) := by
  refine ⟨?_, ?_, ?_, ?_, rfl, rfl, rfl, rfl, ?_⟩
  · simp [_createCA, generateKeyPair, Store.alloc, Store.read,
      publicKeyFromPem, privateKeyFromPem]
  · simp [_createCA, generateKeyPair, Store.alloc, Store.read,
      certificateToPem, publicKeyFromPem, privateKeyFromPem]
  · simp [_createCA, generateKeyPair, Store.alloc, Store.read]
  · have hne : s.next ≠ s.next + 1 + 1 := by omega
    have hne2 : s.next ≠ s.next + 1 := by omega
    simp [_createCA, generateKeyPair, Store.alloc, Store.read, hne, hne2]
  · intro b hb
    simp only [_createCA, generateKeyPair, Store.alloc, Store.read]
    rw [if_neg (by omega), if_neg (by omega), if_neg (by omega)]

lemma authorize_ok_spec (m : MutualTLS) (name : Names) (opts : Opts)
    (now : Int) (seed uuid : Nat) (s : Store) (p : Issued × Store)
    (h : m.authorize name opts now seed uuid s = .ok p) :
    issuedCert p.2 p.1 =
      { publicKey := ⟨seed, jsOrNat opts.bits RSA_KEY_SIZE⟩
        serialNumber := generateSerialNumber uuid
        notBefore := now - 86400 * 1000
        notAfter := now + jsOrInt opts.expiry CERT_NOT_AFTER * 1000
        subject := defaultAttributes (namesList name).head?
        issuer := m._cert.issuer
        extensions := defaultExtensionsCert (namesList name)
        signedWith := privateKeyFromPem
          ((generateKeyPair (jsOrNat opts.bits RSA_KEY_SIZE) seed s).2.read
            m._keyPair.privateKey) }
    ∧ p.2.read p.1.key = Bytes.privKeyPem ⟨seed, jsOrNat opts.bits RSA_KEY_SIZE⟩ := by
  by_cases ht : namesTruthy name
  · rw [MutualTLS.authorize] at h
    simp only [ht, Bool.not_true, Bool.false_eq_true, if_false] at h
    injection h with h
    subst h
    constructor
    · simp [issuedCert, generateKeyPair, Store.alloc, Store.read,
        certificateFromPem, certificateToPem, publicKeyFromPem]
    · have hne : s.next + 1 ≠ s.next + 1 + 1 := by omega
      simp [generateKeyPair, Store.alloc, Store.read, hne]
  · rw [MutualTLS.authorize] at h
    simp [ht] at h

lemma loadCA_key_spec (cb k : Buffer) (s : Store) (q : MutualTLS × Store)
    (hcb : cb.id < s.next) (hk : k.id < s.next)
    (hq : _loadCA { ca := some cb, key := some k } s = .ok q) :
    q.1._cert = certificateFromPem (s.read cb)
    ∧ q.2.read q.1._pem = certificateToPem (certificateFromPem (s.read cb))
    ∧ q.2.read q.1._keyPair.privateKey = s.read k
    ∧ q.2.read q.1._keyPair.publicKey
        = Bytes.pubKeyPem (privateKeyFromPem (s.read k))
    ∧ q.1._keyPair.publicKey.id = s.next + 1
    ∧ q.1._keyPair.privateKey.id = s.next + 2
    ∧ q.1._pem.id = s.next + 3
    ∧ q.2.next = s.next + 4
    ∧ (∀ b : Buffer, b.id < s.next → q.2.read b = s.read b) := by
  simp only [_loadCA, toKeyPair, privateToPublicKey, bufferFrom, Store.alloc,
    Store.read, Option.isNone_none, Option.isNone_some, Bool.true_and,
    Bool.false_and, Bool.and_false, if_false, Bool.false_eq_true] at hq
  injection hq with hq
  subst hq
  refine ⟨?_, ?_, ?_, ?_, rfl, rfl, rfl, rfl, ?_⟩
  · simp only [Store.read, Store.alloc]
    split_ifs <;> first | rfl | (exfalso; omega)
  · simp only [Store.read, Store.alloc]
    split_ifs <;> first | rfl | (exfalso; omega)
  · simp only [Store.read, Store.alloc]
    split_ifs <;> first | rfl | (exfalso; omega)
  · simp only [Store.read, Store.alloc]
    split_ifs <;> first | rfl | (exfalso; omega)
  · intro b hb
    simp only [Store.read, Store.alloc]
    split_ifs <;> first | rfl | (exfalso; omega)

/-- C3 counterexample: a CA restored from a leaf certificate (a reachable use
of `from({key, ca})`) stores subject "leaf.example", yet the certificate it
issues carries issuer "Generic CA" — `authorize` copies the CA certificate's
ISSUER attributes, not the CA's own stored subject attributes, so the claim
fails for this instance. -/
theorem C3_issuer_counterexample :
    exLeafCA.1._cert.subject = [⟨"commonName", some "leaf.example"⟩]
    ∧ (issuedCert exIssued2.2 exIssued2.1).issuer
        = [⟨"commonName", some "Generic CA"⟩]
    ∧ (issuedCert exIssued2.2 exIssued2.1).issuer ≠ exLeafCA.1._cert.subject := by
  refine ⟨rfl, rfl, ?_⟩
  decide

/-- C3 amended: every certificate issued by `authorize` carries, copied
verbatim, the ISSUER attributes of the issuing CA's stored certificate.  For a
CA freshly created as a self-signed root these equal its subject attributes,
and restoring a CA from a root's own `{key, ca}` reproduces the root's
certificate exactly, so for roots and their reload round-trips the issued
issuer equals the CA's stored subject attributes; a CA loaded from a
non-self-signed certificate is the exception. -/
theorem C3_issuer_copied_from_ca_cert :
    (∀ (m : MutualTLS) (name : Names) (opts : Opts) (now : Int)
        (seed uuid : Nat) (s : Store) (p : Issued × Store),
        m.authorize name opts now seed uuid s = .ok p →
        (issuedCert p.2 p.1).issuer = m._cert.issuer)
    ∧ (∀ (opts : Opts) (now : Int) (seed uuid : Nat) (s : Store),
        ((_createCA opts now seed uuid s).1)._cert.issuer
          = ((_createCA opts now seed uuid s).1)._cert.subject)
    ∧ (∀ (opts : Opts) (now : Int) (seed uuid : Nat) (s : Store)
        (q : MutualTLS × Store),
        MutualTLS.fromRoot
            { ca := some ((_createCA opts now seed uuid s).1.ca),
              key := some ((_createCA opts now seed uuid s).1.key) }
            ((_createCA opts now seed uuid s).2) = .ok q →
        q.1._cert = ((_createCA opts now seed uuid s).1)._cert) := by
  refine ⟨?_, ?_, ?_⟩
  · intro m name opts now seed uuid s p h
    rw [(authorize_ok_spec m name opts now seed uuid s p h).1]
  · intro opts now seed uuid s
    rw [(createCA_spec opts now seed uuid s).1]
  · intro opts now seed uuid s q hq
    rw [MutualTLS.fromRoot] at hq
    obtain ⟨-, hpem, -, -, -, -, hpemid, hnext, -⟩ :=
      createCA_spec opts now seed uuid s
    have hcb : ((_createCA opts now seed uuid s).1.ca).id
        < ((_createCA opts now seed uuid s).2).next := by
      show ((_createCA opts now seed uuid s).1._pem).id < _
      omega
    have hk : ((_createCA opts now seed uuid s).1.key).id
        < ((_createCA opts now seed uuid s).2).next := by
      show ((_createCA opts now seed uuid s).1._keyPair.privateKey).id < _
      have := (createCA_spec opts now seed uuid s).2.2.2.2.2.1
      omega
    obtain ⟨hc, -⟩ := loadCA_key_spec _ _ _ q hcb hk hq
    rw [hc]
    show certificateFromPem
      (((_createCA opts now seed uuid s).2).read
        ((_createCA opts now seed uuid s).1)._pem) = _
    rw [hpem]
    rfl

/-- C3 witness: the amended theorem applied to the concrete root — the leaf it
issues carries the root certificate's issuer attributes, the root is
self-signed, and restoring from the root's own `{key, ca}` reproduces its
certificate. -/
theorem C3_issuer_copied_from_ca_cert_witness :
    (issuedCert exLeaf.2 exLeaf.1).issuer = exRoot.1._cert.issuer
    ∧ exRoot.1._cert.issuer = exRoot.1._cert.subject
    ∧ (exceptCA (MutualTLS.fromRoot
        { ca := some exRoot.1.ca, key := some exRoot.1.key } exRoot.2)).1._cert
      = exRoot.1._cert :=
  ⟨C3_issuer_copied_from_ca_cert.1 exRoot.1 (.str "leaf.example") {} 0 1 1
      exRoot.2 exLeaf rfl,
   C3_issuer_copied_from_ca_cert.2.1 {} 0 0 0 exStore,
   C3_issuer_copied_from_ca_cert.2.2 {} 0 0 0 exStore _ rfl⟩

/-- C4: restoring a CA from a freshly created root's own `{key, ca}` accessors
succeeds with a `.key` and `.ca` whose contents are byte-equal to the
originals (whose contents are also left untouched), while the restored
instance's buffers are distinct from the root's — no aliasing between the two
instances. -/
theorem C4_roundtrip (opts : Opts) (now : Int) (seed uuid : Nat) (s : Store)
    (q : MutualTLS × Store)
    (hq : MutualTLS.fromRoot
        { ca := some ((_createCA opts now seed uuid s).1.ca),
          key := some ((_createCA opts now seed uuid s).1.key) }
        ((_createCA opts now seed uuid s).2) = .ok q) :
    q.2.read q.1.ca
      = ((_createCA opts now seed uuid s).2).read ((_createCA opts now seed uuid s).1.ca)
    ∧ q.2.read q.1.key
      = ((_createCA opts now seed uuid s).2).read ((_createCA opts now seed uuid s).1.key)
    ∧ q.2.read ((_createCA opts now seed uuid s).1.ca)
      = ((_createCA opts now seed uuid s).2).read ((_createCA opts now seed uuid s).1.ca)
    ∧ q.2.read ((_createCA opts now seed uuid s).1.key)
      = ((_createCA opts now seed uuid s).2).read ((_createCA opts now seed uuid s).1.key)
    ∧ q.1.ca ≠ (_createCA opts now seed uuid s).1.ca
    ∧ q.1.key ≠ (_createCA opts now seed uuid s).1.key := by
  rw [MutualTLS.fromRoot] at hq
  obtain ⟨-, hpem, hpriv, -, -, hprivid, hpemid, hnext, -⟩ :=
    createCA_spec opts now seed uuid s
  have hcb : ((_createCA opts now seed uuid s).1.ca).id
      < ((_createCA opts now seed uuid s).2).next := by
    show ((_createCA opts now seed uuid s).1._pem).id < _
    omega
  have hk : ((_createCA opts now seed uuid s).1.key).id
      < ((_createCA opts now seed uuid s).2).next := by
    show ((_createCA opts now seed uuid s).1._keyPair.privateKey).id < _
    omega
  obtain ⟨-, hqpem, hqpriv, -, -, hqprivid, hqpemid, -, hqold⟩ :=
    loadCA_key_spec _ _ _ q hcb hk hq
  refine ⟨?_, ?_, hqold _ hcb, hqold _ hk, ?_, ?_⟩
  · show q.2.read q.1._pem = _
    have hca : ((_createCA opts now seed uuid s).2).read
        ((_createCA opts now seed uuid s).1.ca)
        = certificateToPem ((_createCA opts now seed uuid s).1)._cert := hpem
    rw [hqpem, hca]
    rfl
  · show q.2.read q.1._keyPair.privateKey = _
    rw [hqpriv]
  · intro h
    have hid := congrArg Buffer.id h
    have h1 : (q.1.ca).id = ((_createCA opts now seed uuid s).2).next + 3 := hqpemid
    have h2 : ((_createCA opts now seed uuid s).1.ca).id = s.next + 2 := hpemid
    omega
  · intro h
    have hid := congrArg Buffer.id h
    have h1 : (q.1.key).id = ((_createCA opts now seed uuid s).2).next + 2 := hqprivid
    have h2 : ((_createCA opts now seed uuid s).1.key).id = s.next + 1 := hprivid
    omega

/-- C4 witness: the round-trip theorem applied to the concrete root — the
restored certificate buffer is byte-equal to, yet distinct from, the root's
own. -/
theorem C4_roundtrip_witness :
    (exceptCA (MutualTLS.fromRoot
        { ca := some exRoot.1.ca, key := some exRoot.1.key } exRoot.2)).2.read
      (exceptCA (MutualTLS.fromRoot
        { ca := some exRoot.1.ca, key := some exRoot.1.key } exRoot.2)).1.ca
      = exRoot.2.read exRoot.1.ca
    ∧ (exceptCA (MutualTLS.fromRoot
        { ca := some exRoot.1.ca, key := some exRoot.1.key } exRoot.2)).1.ca
      ≠ exRoot.1.ca :=
  ⟨(C4_roundtrip {} 0 0 0 exStore _ rfl).1,
   (C4_roundtrip {} 0 0 0 exStore _ rfl).2.2.2.2.1⟩

/-- C6: restoring fails with "Missing certificate" whenever the certificate is
absent (whatever keys are supplied); fails with "Missing key pair or private
key" when neither a key pair nor a private key is present even though the
certificate is; and when only a private key is given the stored public key is
the one derived from it via `privateToPublicKey`, unless a public key is
supplied, in which case the supplied one's bytes are used. -/
theorem C6_restore_requirements (s : Store) :
    (∀ (k : Option Buffer) (kp : Option KeyPairB) (pk : Option Buffer),
        MutualTLS.fromRoot { ca := none, key := k, keyPair := kp, publicKey := pk } s
          = .error "Missing certificate")
    ∧ (∀ (cb : Buffer) (pk : Option Buffer),
        MutualTLS.fromRoot
            { ca := some cb, key := none, keyPair := none, publicKey := pk } s
          = .error "Missing key pair or private key")
    ∧ (∀ (cb k : Buffer) (q : MutualTLS × Store),
        MutualTLS.fromRoot { ca := some cb, key := some k } s = .ok q →
        q.2.read q.1._keyPair.publicKey
          = Bytes.pubKeyPem (privateKeyFromPem (s.read k)))
    ∧ (∀ (cb k pb : Buffer) (q : MutualTLS × Store),
        MutualTLS.fromRoot
            { ca := some cb, key := some k, publicKey := some pb } s = .ok q →
        q.2.read q.1._keyPair.publicKey = s.read pb) := by
  refine ⟨fun k kp pk => rfl, fun cb pk => rfl, ?_, ?_⟩
  · intro cb k q hq
    simp only [MutualTLS.fromRoot, _loadCA, toKeyPair, privateToPublicKey,
      bufferFrom, Store.alloc, Store.read, Option.isNone_none,
      Option.isNone_some, Bool.true_and, Bool.false_and, Bool.and_false,
      if_false, Bool.false_eq_true] at hq
    injection hq with hq
    subst hq
    simp only [Store.read, Store.alloc]
    split_ifs <;> first | rfl | (exfalso; omega)
  · intro cb k pb q hq
    simp only [MutualTLS.fromRoot, _loadCA, toKeyPair, privateToPublicKey,
      bufferFrom, Store.alloc, Store.read, Option.isNone_none,
      Option.isNone_some, Bool.true_and, Bool.false_and, Bool.and_false,
      if_false, Bool.false_eq_true] at hq
    injection hq with hq
    subst hq
    simp only [Store.read, Store.alloc]
    split_ifs <;> first | rfl | (exfalso; omega)

/-- C6 witness: the restore requirements applied at the concrete root's
buffers — including derivation of the public key from the private key alone,
and use of a supplied public key when present. -/
theorem C6_restore_requirements_witness :
    MutualTLS.fromRoot { ca := none } exRoot.2 = .error "Missing certificate"
    ∧ MutualTLS.fromRoot { ca := some exRoot.1.ca } exRoot.2
        = .error "Missing key pair or private key"
    ∧ (exceptCA (MutualTLS.fromRoot
        { ca := some exRoot.1.ca, key := some exRoot.1.key } exRoot.2)).2.read
        (exceptCA (MutualTLS.fromRoot
          { ca := some exRoot.1.ca, key := some exRoot.1.key } exRoot.2)).1._keyPair.publicKey
      = Bytes.pubKeyPem (privateKeyFromPem (exRoot.2.read exRoot.1.key))
    ∧ (exceptCA (MutualTLS.fromRoot
        { ca := some exRoot.1.ca, key := some exRoot.1.key,
          publicKey := some exRoot.1._keyPair.publicKey } exRoot.2)).2.read
        (exceptCA (MutualTLS.fromRoot
          { ca := some exRoot.1.ca, key := some exRoot.1.key,
            publicKey := some exRoot.1._keyPair.publicKey } exRoot.2)).1._keyPair.publicKey
      = exRoot.2.read exRoot.1._keyPair.publicKey :=
  ⟨(C6_restore_requirements exRoot.2).1 none none none,
   (C6_restore_requirements exRoot.2).2.1 exRoot.1.ca none,
   (C6_restore_requirements exRoot.2).2.2.1 exRoot.1.ca exRoot.1.key _ rfl,
   (C6_restore_requirements exRoot.2).2.2.2 exRoot.1.ca exRoot.1.key
     exRoot.1._keyPair.publicKey _ rfl⟩

/-- C7: the issued certificate's subjectAltName is exactly the name sequence
mapped, in order, through the classification rule — a name that is non-empty
and made only of digits and dots becomes an IP entry carrying that literal
value, any other name a DNS entry — and the subject commonName is the first
element of the sequence. -/
theorem C7_alt_names (m : MutualTLS) (name : Names) (opts : Opts)
    (now : Int) (seed uuid : Nat) (s : Store) (p : Issued × Store)
    (h : m.authorize name opts now seed uuid s = .ok p) :
    findSubjectAltName (issuedCert p.2 p.1).extensions
      = some ((namesList name).map getAltName)
    ∧ ((namesList name).map getAltName).length = (namesList name).length
    ∧ (∀ (n0 : String) (rest : List String), namesList name = n0 :: rest →
        (issuedCert p.2 p.1).subject = [⟨"commonName", some n0⟩])
    ∧ (∀ nm, matchIpLike nm = true → getAltName nm = .ip nm)
    ∧ (∀ nm, matchIpLike nm = false → getAltName nm = .dns nm)
    ∧ (∀ nm, matchIpLike nm = true ↔
        nm ≠ "" ∧ ∀ ch ∈ nm.data, ch.isDigit = true ∨ ch = '.') := by
  refine ⟨?_, List.length_map _ _, ?_, ?_, ?_, ?_⟩
  · rw [(authorize_ok_spec m name opts now seed uuid s p h).1]
    exact rfl
  · intro n0 rest hl
    rw [(authorize_ok_spec m name opts now seed uuid s p h).1]
    show defaultAttributes (namesList name).head? = _
    rw [hl]
    rfl
  · intro nm hip
    simp [getAltName, hip]
  · intro nm hip
    simp [getAltName, hip]
  · intro nm
    simp only [matchIpLike, Bool.and_eq_true, Bool.not_eq_true',
      List.all_eq_true, Bool.or_eq_true, beq_iff_eq]
    constructor
    · rintro ⟨h1, h2⟩
      refine ⟨?_, h2⟩
      intro he
      subst he
      exact absurd h1 (by decide)
    · rintro ⟨h1, h2⟩
      refine ⟨?_, h2⟩
      cases hb : nm.isEmpty
      · rfl
      · exact absurd ((String.isEmpty_iff nm).mp hb) h1

/-- C7 witness: issuing for the sequence `["localhost", "127.0.0.1"]` yields a
DNS entry then an IP entry, in order, with commonName "localhost". -/
theorem C7_alt_names_witness :
    findSubjectAltName (issuedCert exSan.2 exSan.1).extensions
      = some [AltName.dns "localhost", AltName.ip "127.0.0.1"]
    ∧ (issuedCert exSan.2 exSan.1).subject
      = [⟨"commonName", some "localhost"⟩] := by
  constructor
  · rw [(C7_alt_names exRoot.1 (.arr ["localhost", "127.0.0.1"]) {} 0 3 3
      exRoot.2 exSan rfl).1]
    decide
  · exact (C7_alt_names exRoot.1 (.arr ["localhost", "127.0.0.1"]) {} 0 3 3
      exRoot.2 exSan rfl).2.2.1 "localhost" ["127.0.0.1"] rfl

/-- C8: for roots and for leaves, notBefore is the issuance time minus one day
(in milliseconds) and notAfter is the issuance time plus the expiry option in
seconds (root default 365 days, leaf default 90 days); hence
notBefore < notAfter for the default or any positive expiry. -/
theorem C8_validity_window (opts : Opts) (now : Int) (seed uuid : Nat)
    (s : Store) :
    (((_createCA opts now seed uuid s).1)._cert.notBefore = now - 86400 * 1000
     ∧ ((_createCA opts now seed uuid s).1)._cert.notAfter
        = now + jsOrInt opts.expiry ROOT_NOT_AFTER * 1000
     ∧ (opts.expiry = none →
        ((_createCA opts now seed uuid s).1)._cert.notBefore
          < ((_createCA opts now seed uuid s).1)._cert.notAfter)
     ∧ (∀ e : Int, opts.expiry = some e → 0 < e →
        ((_createCA opts now seed uuid s).1)._cert.notBefore
          < ((_createCA opts now seed uuid s).1)._cert.notAfter))
    ∧ (∀ (m : MutualTLS) (name : Names) (aopts : Opts) (now2 : Int)
        (seed2 uuid2 : Nat) (s2 : Store) (p : Issued × Store),
        m.authorize name aopts now2 seed2 uuid2 s2 = .ok p →
        (issuedCert p.2 p.1).notBefore = now2 - 86400 * 1000
        ∧ (issuedCert p.2 p.1).notAfter
            = now2 + jsOrInt aopts.expiry CERT_NOT_AFTER * 1000
        ∧ (aopts.expiry = none →
            (issuedCert p.2 p.1).notBefore < (issuedCert p.2 p.1).notAfter)
        ∧ (∀ e : Int, aopts.expiry = some e → 0 < e →
            (issuedCert p.2 p.1).notBefore < (issuedCert p.2 p.1).notAfter))
    ∧ ROOT_NOT_AFTER = 365 * 86400
    ∧ CERT_NOT_AFTER = 90 * 86400 := by
  have hroot := (createCA_spec opts now seed uuid s).1
  refine ⟨⟨?_, ?_, ?_, ?_⟩, ?_, rfl, rfl⟩
  · rw [hroot]
  · rw [hroot]
  · intro he
    rw [hroot]
    show now - 86400 * 1000 < now + jsOrInt opts.expiry ROOT_NOT_AFTER * 1000
    rw [he]
    show now - 86400 * 1000 < now + ROOT_NOT_AFTER * 1000
    rw [ROOT_NOT_AFTER]
    omega
  · intro e he hpos
    rw [hroot]
    show now - 86400 * 1000 < now + jsOrInt opts.expiry ROOT_NOT_AFTER * 1000
    rw [he]
    show now - 86400 * 1000 < now + (if e = 0 then ROOT_NOT_AFTER else e) * 1000
    rw [if_neg (by omega)]
    omega
  · intro m name aopts now2 seed2 uuid2 s2 p h
    have hleaf := (authorize_ok_spec m name aopts now2 seed2 uuid2 s2 p h).1
    refine ⟨?_, ?_, ?_, ?_⟩
    · rw [hleaf]
    · rw [hleaf]
    · intro he
      rw [hleaf]
      show now2 - 86400 * 1000 < now2 + jsOrInt aopts.expiry CERT_NOT_AFTER * 1000
      rw [he]
      show now2 - 86400 * 1000 < now2 + CERT_NOT_AFTER * 1000
      rw [CERT_NOT_AFTER]
      omega
    · intro e he hpos
      rw [hleaf]
      show now2 - 86400 * 1000 < now2 + jsOrInt aopts.expiry CERT_NOT_AFTER * 1000
      rw [he]
      show now2 - 86400 * 1000 < now2 + (if e = 0 then CERT_NOT_AFTER else e) * 1000
      rw [if_neg (by omega)]
      omega

/-- C8 witness: the validity-window theorem at concrete inputs — a default
root at time 0 and a leaf issued with expiry 1 second. -/
theorem C8_validity_window_witness :
    exRoot.1._cert.notBefore < exRoot.1._cert.notAfter
    ∧ (issuedCert
        (exceptIssued (exRoot.1.authorize (.str "w") { expiry := some 1 }
          0 4 4 exRoot.2)).2
        (exceptIssued (exRoot.1.authorize (.str "w") { expiry := some 1 }
          0 4 4 exRoot.2)).1).notBefore
      < (issuedCert
        (exceptIssued (exRoot.1.authorize (.str "w") { expiry := some 1 }
          0 4 4 exRoot.2)).2
        (exceptIssued (exRoot.1.authorize (.str "w") { expiry := some 1 }
          0 4 4 exRoot.2)).1).notAfter :=
  ⟨(C8_validity_window {} 0 0 0 exStore).1.2.2.1 rfl,
   ((C8_validity_window {} 0 0 0 exStore).2.1 exRoot.1 (.str "w")
      { expiry := some 1 } 0 4 4 exRoot.2
      (exceptIssued (exRoot.1.authorize (.str "w") { expiry := some 1 }
        0 4 4 exRoot.2)) rfl).2.2.2 1 rfl (by decide)⟩

/-- C9: a freshly created root is self-signed — subject equals issuer equals
the single commonName attribute (defaulting to "Generic CA"), the signature
key is the root's own freshly generated private key, whose public half is the
certificate's public key — and its extension set is exactly basicConstraints
cA=true, keyUsage with all five flags true, extKeyUsage with all five
purposes true, nsCertType with all seven legacy flags true, and
subjectKeyIdentifier, with no subjectAltName. -/
theorem C9_root_extensions (opts : Opts) (now : Int) (seed uuid : Nat)
    (s : Store) :
    ((_createCA opts now seed uuid s).1)._cert.subject
      = ((_createCA opts now seed uuid s).1)._cert.issuer
    ∧ ((_createCA opts now seed uuid s).1)._cert.subject
      = [⟨"commonName", some (jsOrStr opts.name ROOT_COMMON_NAME)⟩]
    ∧ (opts.name = none →
        ((_createCA opts now seed uuid s).1)._cert.subject
          = [⟨"commonName", some "Generic CA"⟩])
    ∧ ((_createCA opts now seed uuid s).1)._cert.extensions
      = defaultExtensionsRoot
    ∧ defaultExtensionsRoot
      = [ .basicConstraints true,
          .keyUsage true true true true true,
          .extKeyUsage true true true true true,
          .nsCertType true true true true true true true,
          .subjectKeyIdentifier ]
    ∧ findSubjectAltName ((_createCA opts now seed uuid s).1)._cert.extensions
      = none
    ∧ ((_createCA opts now seed uuid s).1)._cert.signedWith
      = privateKeyFromPem
          (((_createCA opts now seed uuid s).2).read
            ((_createCA opts now seed uuid s).1)._keyPair.privateKey)
    ∧ ((_createCA opts now seed uuid s).1)._cert.publicKey
      = ((_createCA opts now seed uuid s).1)._cert.signedWith := by
  obtain ⟨hc, -, hpriv, -, -⟩ := createCA_spec opts now seed uuid s
  refine ⟨by rw [hc], by rw [hc]; rfl, ?_, by rw [hc], rfl,
    by rw [hc]; rfl, ?_, by rw [hc]⟩
  · intro hn
    rw [hc]
    show defaultAttributes (some (jsOrStr opts.name ROOT_COMMON_NAME)) = _
    rw [hn]
    rfl
  · rw [hc, hpriv]
    rfl

/-- C9 witness: the root theorem at default options — the default commonName
"Generic CA" conjunct is discharged at `opts.name = none`. -/
theorem C9_root_extensions_witness :
    exRoot.1._cert.subject = [⟨"commonName", some "Generic CA"⟩] :=
  (C9_root_extensions {} 0 0 0 exStore).2.2.1 rfl

/-- C10: a `bits` or `expiry` option equal to 0 (falsy in JavaScript, like
absence) is silently replaced by the default — 2048 bits, 365-day root expiry,
90-day leaf expiry — because option presence is tested with `||`; a caller
cannot request a zero expiry or zero key size. -/
theorem C10_falsy_options_defaulted (opts : Opts) (now : Int) (seed uuid : Nat)
    (s : Store) :
    ((opts.bits = some 0 ∨ opts.bits = none) →
      ((_createCA opts now seed uuid s).2).read
          ((_createCA opts now seed uuid s).1)._keyPair.privateKey
        = Bytes.privKeyPem ⟨seed, 2048⟩)
    ∧ ((opts.expiry = some 0 ∨ opts.expiry = none) →
      ((_createCA opts now seed uuid s).1)._cert.notAfter
        = now + (365 * 86400) * 1000)
    ∧ (∀ (m : MutualTLS) (name : Names) (aopts : Opts) (now2 : Int)
        (seed2 uuid2 : Nat) (s2 : Store) (p : Issued × Store),
        m.authorize name aopts now2 seed2 uuid2 s2 = .ok p →
        ((aopts.bits = some 0 ∨ aopts.bits = none) →
          p.2.read p.1.key = Bytes.privKeyPem ⟨seed2, 2048⟩)
        ∧ ((aopts.expiry = some 0 ∨ aopts.expiry = none) →
          (issuedCert p.2 p.1).notAfter = now2 + (90 * 86400) * 1000)) := by
  obtain ⟨hc, -, hpriv, -, -⟩ := createCA_spec opts now seed uuid s
  refine ⟨?_, ?_, ?_⟩
  · intro hb
    rcases hb with hb | hb <;> rw [hb] at hpriv <;> exact hpriv
  · intro hb
    rw [hc]
    show now + jsOrInt opts.expiry ROOT_NOT_AFTER * 1000 = _
    rcases hb with hb | hb <;> rw [hb] <;> norm_num [jsOrInt, ROOT_NOT_AFTER]
  · intro m name aopts now2 seed2 uuid2 s2 p h
    obtain ⟨hcert, hkey⟩ := authorize_ok_spec m name aopts now2 seed2 uuid2 s2 p h
    constructor
    · intro hb
      rcases hb with hb | hb <;> rw [hb] at hkey <;> exact hkey
    · intro hb
      rw [hcert]
      show now2 + jsOrInt aopts.expiry CERT_NOT_AFTER * 1000 = _
      rcases hb with hb | hb <;> rw [hb] <;> norm_num [jsOrInt, CERT_NOT_AFTER]

/-- C10 witness: creating a root with `{bits: 0, expiry: 0}` stores a
2048-bit key and a 365-day notAfter, and a leaf issued with `{bits: 0,
expiry: 0}` gets a 2048-bit key and a 90-day notAfter. -/
theorem C10_falsy_options_defaulted_witness :
    (_createCA { bits := some 0, expiry := some 0 } 0 0 0 exStore).2.read
        (_createCA { bits := some 0, expiry := some 0 } 0 0 0 exStore).1._keyPair.privateKey
      = Bytes.privKeyPem ⟨0, 2048⟩
    ∧ (_createCA { bits := some 0, expiry := some 0 } 0 0 0 exStore).1._cert.notAfter
      = 0 + (365 * 86400) * 1000
    ∧ (exceptIssued (exRoot.1.authorize (.str "w0")
        { bits := some 0, expiry := some 0 } 0 5 5 exRoot.2)).2.read
        (exceptIssued (exRoot.1.authorize (.str "w0")
          { bits := some 0, expiry := some 0 } 0 5 5 exRoot.2)).1.key
      = Bytes.privKeyPem ⟨5, 2048⟩
    ∧ (issuedCert
        (exceptIssued (exRoot.1.authorize (.str "w0")
          { bits := some 0, expiry := some 0 } 0 5 5 exRoot.2)).2
        (exceptIssued (exRoot.1.authorize (.str "w0")
          { bits := some 0, expiry := some 0 } 0 5 5 exRoot.2)).1).notAfter
      = 0 + (90 * 86400) * 1000 :=
  ⟨(C10_falsy_options_defaulted { bits := some 0, expiry := some 0 }
      0 0 0 exStore).1 (Or.inl rfl),
   (C10_falsy_options_defaulted { bits := some 0, expiry := some 0 }
      0 0 0 exStore).2.1 (Or.inl rfl),
   ((C10_falsy_options_defaulted {} 0 0 0 exStore).2.2 exRoot.1 (.str "w0")
      { bits := some 0, expiry := some 0 } 0 5 5 exRoot.2
      (exceptIssued (exRoot.1.authorize (.str "w0")
        { bits := some 0, expiry := some 0 } 0 5 5 exRoot.2)) rfl).1
     (Or.inl rfl),
   ((C10_falsy_options_defaulted {} 0 0 0 exStore).2.2 exRoot.1 (.str "w0")
      { bits := some 0, expiry := some 0 } 0 5 5 exRoot.2
      (exceptIssued (exRoot.1.authorize (.str "w0")
        { bits := some 0, expiry := some 0 } 0 5 5 exRoot.2)) rfl).2
     (Or.inl rfl)⟩
